import Mathlib

/-!
Verification of the pauleynuts fundraising backend: a shallow embedding of the
notification-scheduling subsystem (`content.service.ts`, `notificationWorker.ts`)
and the invitation+donation transaction (`campaign.service.ts`), with theorems
about cron-expression derivation, schedule reconciliation, job handlers and the
atomic donation flow.

Conventions of the embedding:
- JavaScript strings are Lean `String`s; possibly-`undefined` strings are
  `Option String`; string interpolation of `undefined` renders "undefined".
- Monetary amounts and counters are `Int` (the flows only add integers);
  campaign progress arithmetic, which divides, uses `Rat` wrapped in a small
  IEEE-style `JSNum` type so that division by zero yields Infinity/NaN exactly
  as JavaScript number division does.
- Mongo sessions are embedded as all-or-nothing state transitions: the
  transaction body is a pure function from the database to `Except`, the catch
  branch restores the original database.
- External failures (queue backend, notification sender, SMS delivery) are
  injected through explicit environment records so that error-handling claims
  quantify over every failure pattern.
-/

namespace PauleyNuts

/-! ## JavaScript string primitives -/

/-- JS `String.prototype.split` with a one-character separator, on char lists:
`"" → [""]`, `"a:b" → ["a","b"]`, `":" → ["",""]`, `"abc" → ["abc"]`. -/
def splitCharList (sep : Char) : List Char → List (List Char)
  | [] => [[]]
  | c :: rest =>
    if c = sep then [] :: splitCharList sep rest
    else
      match splitCharList sep rest with
      | [] => [[c]]
      | p :: ps => (c :: p) :: ps

/-- JS `s.split(sep)` for a single-character separator. -/
def jsSplit (s : String) (sep : Char) : List String :=
  (splitCharList sep s.data).map String.mk

/-- Whether `sub` occurs at the head of the second list. -/
def startsWithList : List Char → List Char → Bool
  | [], _ => true
  | _ :: _, [] => false
  | a :: as, b :: bs => a == b && startsWithList as bs

/-- Whether `sub` occurs contiguously anywhere in the second list. -/
def containsList (sub : List Char) : List Char → Bool
  | [] => sub.isEmpty
  | c :: rest => startsWithList sub (c :: rest) || containsList sub rest

/-- JS `s.includes(sub)`: substring containment. -/
def strIncludes (s sub : String) : Bool := containsList sub.data s.data

/-- JS `String.prototype.replace` with a string pattern: replaces only the
FIRST occurrence of `pat` in `s` (or none, if `pat` does not occur). -/
def replaceFirstList (pat rep : List Char) : List Char → List Char
  | [] => []
  | c :: rest =>
    if startsWithList pat (c :: rest) then rep ++ (c :: rest).drop pat.length
    else c :: replaceFirstList pat rep rest

/-- JS `s.replace(pat, rep)` (first occurrence only).  For an empty pattern JS
inserts `rep` at the start; `replaceFirstList` does the same. -/
def jsReplaceFirst (s pat rep : String) : String :=
  String.mk (replaceFirstList pat.data rep.data s.data)

/-- JS template interpolation of a possibly-`undefined` string value. -/
def jsUndef : Option String → String
  | some s => s
  | none => "undefined"

/-- JS falsiness of a possibly-`undefined` string (`undefined` and `""`). -/
def jsStrOptFalsy : Option String → Bool
  | none => true
  | some s => s == ""

/-! ## CronExpressionBuilder (content.service.ts lines 111-143, 203-214)

`content.enum.ts` is not under src/; per the spec the frequency enum has the
two runtime string values "weekly" and "biweekly", and the day enum the seven
weekday names.  The weekday enum is embedded as an inductive because
`getDayNumber` (which IS in src/) enumerates exactly its seven values. -/

inductive ProgressAlertDay where
  | monday | tuesday | wednesday | thursday | friday | saturday | sunday
deriving DecidableEq, Repr

/-- `getDayNumber` of content.service.ts lines 203-214. -/
def getDayNumber : ProgressAlertDay → Nat
  | .monday => 1
  | .tuesday => 2
  | .wednesday => 3
  | .thursday => 4
  | .friday => 5
  | .saturday => 6
  | .sunday => 0

/-- `notificationStrategy.progressAlertSchedule` (spec section 3; the
interface file is not under src/).  `day` and `time` may be absent. -/
structure ProgressAlertSchedule where
  frequency : String
  day : Option ProgressAlertDay
  time : Option String
deriving DecidableEq, Repr

/-- The weekday cron field: the source applies `getDayNumber(day!)`; with `day`
absent the lookup yields `undefined`, which the template renders verbatim. -/
def weekdayField : Option ProgressAlertDay → String
  | some d => toString (getDayNumber d)
  | none => "undefined"

/-- `const [hour, minute] = time ? time.split(':') : ['09', '00']` of
content.service.ts line 116 (JS: an empty or absent `time` is falsy). -/
def timeParts : Option String → List String
  | some t => if t ≠ "" then jsSplit t ':' else ["09", "00"]
  | none => ["09", "00"]

/-- The cron-expression derivation inlined in `addProgressAlertJob`
(content.service.ts lines 114-124), extracted as the pure builder the spec
calls `CronExpressionBuilder`.  Destructuring yields `hour` as element 0 and
`minute` as element 1 of the split (absent elements are `undefined`). -/
def buildCronExpression (s : ProgressAlertSchedule) : String :=
  let parts := timeParts s.time
  let hour := parts[0]?
  let minute := parts[1]?
  if s.frequency = "weekly" then
    jsUndef minute ++ " " ++ jsUndef hour ++ " * * " ++ weekdayField s.day
  else
    jsUndef minute ++ " " ++ jsUndef hour ++ " 1,15 * *"

/-! ### Split lemmas -/

theorem splitCharList_ne_nil (sep : Char) (l : List Char) :
    splitCharList sep l ≠ [] := by
  induction l with
  | nil => simp [splitCharList]
  | cons c rest ih =>
    simp only [splitCharList]
    by_cases hc : c = sep
    · simp [hc]
    · simp only [if_neg hc]
      cases h : splitCharList sep rest with
      | nil => exact absurd h ih
      | cons p ps => simp

theorem splitCharList_no_sep (sep : Char) (l : List Char) (h : sep ∉ l) :
    splitCharList sep l = [l] := by
  induction l with
  | nil => rfl
  | cons c rest ih =>
    simp only [List.mem_cons, not_or] at h
    simp only [splitCharList, ih h.2]
    rw [if_neg (by exact fun hc => h.1 hc.symm)]

theorem splitCharList_append_sep (sep : Char) (l₁ l₂ : List Char)
    (h : sep ∉ l₁) :
    splitCharList sep (l₁ ++ sep :: l₂) = l₁ :: splitCharList sep l₂ := by
  induction l₁ with
  | nil =>
    simp only [List.nil_append, splitCharList, if_pos rfl]
    cases h2 : splitCharList sep l₂ with
    | nil => exact absurd h2 (splitCharList_ne_nil sep l₂)
    | cons p ps => rfl
  | cons c rest ih =>
    simp only [List.mem_cons, not_or] at h
    simp only [List.cons_append, splitCharList, ih h.2]
    rw [if_neg (by exact fun hc => h.1 hc.symm)]
    cases h2 : splitCharList sep (rest ++ sep :: l₂) with
    | nil => exact absurd h2 (splitCharList_ne_nil sep _)
    | cons p ps => simp_all

theorem jsSplit_hhmm (hh mm : String) (hhh : ':' ∉ hh.data) (hmm : ':' ∉ mm.data) :
    jsSplit (hh ++ ":" ++ mm) ':' = [hh, mm] := by
  have hdata : (hh ++ ":" ++ mm).data = hh.data ++ ':' :: mm.data := by
    simp [String.data_append]
  rw [jsSplit, hdata, splitCharList_append_sep ':' hh.data mm.data hhh,
    splitCharList_no_sep ':' mm.data hmm]
  rfl

theorem hhmm_ne_empty (hh mm : String) : hh ++ ":" ++ mm ≠ "" := by
  intro h
  have : (hh ++ ":" ++ mm).data = ("" : String).data := by rw [h]
  simp [String.data_append] at this

/-- C2 counterexample: the builder never raises the `InvalidScheduleConfig`
error the claim requires — an unsupported frequency such as "monthly" falls
into the same else-branch and silently yields the 1st-and-15th pattern — and
the claimed example output "30 9 1,15 * *" is also wrong: the code emits the
hour substring verbatim, so `{frequency: biweekly, time: "09:30"}` yields
"30 09 1,15 * *" (leading zero kept). -/
theorem nonweekly_cron_counterexample :
    buildCronExpression ⟨"biweekly", none, some "09:30"⟩ = "30 09 1,15 * *"
    ∧ buildCronExpression ⟨"biweekly", none, some "09:30"⟩ ≠ "30 9 1,15 * *"
    ∧ buildCronExpression ⟨"monthly", none, some "09:30"⟩ = "30 09 1,15 * *" := by
  refine ⟨by decide, by decide, by decide⟩

/-- C2 (amended): for every schedule whose frequency is not "weekly" —
including values outside the two supported ones — the builder totally and
silently emits "<minute> <hour> 1,15 * *", where minute and hour are the
verbatim substrings of the split time (element 1 and element 0); no
`InvalidScheduleConfig` failure path exists. -/
theorem nonweekly_cron_amended (s : ProgressAlertSchedule)
    (h : s.frequency ≠ "weekly") :
    buildCronExpression s
      = jsUndef (timeParts s.time)[1]? ++ " " ++ jsUndef (timeParts s.time)[0]?
          ++ " 1,15 * *" := by
  simp [buildCronExpression, if_neg h]

theorem nonweekly_cron_amended_witness :
    ("biweekly" ≠ "weekly")
    ∧ buildCronExpression ⟨"biweekly", none, some "09:30"⟩
        = jsUndef (timeParts (some "09:30"))[1]? ++ " "
            ++ jsUndef (timeParts (some "09:30"))[0]? ++ " 1,15 * *" :=
  ⟨by decide, nonweekly_cron_amended ⟨"biweekly", none, some "09:30"⟩ (by decide)⟩

/-- C3 counterexample: the weekly example `{frequency: weekly, day: monday,
time: "10:00"}` yields "00 10 * * 1" — the minute field is the verbatim
substring "00", not the claimed "0" — and a malformed time such as "abc" is
NOT defaulted to 09:00: the destructured minute is `undefined` and the builder
emits "undefined abc * * 1". -/
theorem weekly_cron_counterexample :
    buildCronExpression ⟨"weekly", some .monday, some "10:00"⟩ = "00 10 * * 1"
    ∧ buildCronExpression ⟨"weekly", some .monday, some "10:00"⟩ ≠ "0 10 * * 1"
    ∧ buildCronExpression ⟨"weekly", some .monday, some "abc"⟩
        = "undefined abc * * 1" := by
  refine ⟨by decide, by decide, by decide⟩

/-- C3 (amended): for every weekly schedule whose time has the form "HH:MM"
(colon-free parts), the output is "<MM> <HH> * * <weekday>" with the parts
used verbatim (leading zeros kept) and the weekday given by the canonical
numeric mapping sunday=0 … saturday=6; only an absent (or empty, hence falsy)
time defaults, to hour "09" minute "00".  Example: weekly/monday/"10:00"
gives "00 10 * * 1". -/
theorem weekly_cron_amended (d : ProgressAlertDay) (hh mm : String)
    (hhh : ':' ∉ hh.data) (hmm : ':' ∉ mm.data) :
    buildCronExpression ⟨"weekly", some d, some (hh ++ ":" ++ mm)⟩
        = mm ++ " " ++ hh ++ " * * " ++ toString (getDayNumber d)
    ∧ buildCronExpression ⟨"weekly", some d, none⟩
        = "00 09 * * " ++ toString (getDayNumber d)
    ∧ getDayNumber .sunday = 0 ∧ getDayNumber .monday = 1
    ∧ getDayNumber .tuesday = 2 ∧ getDayNumber .wednesday = 3
    ∧ getDayNumber .thursday = 4 ∧ getDayNumber .friday = 5
    ∧ getDayNumber .saturday = 6 := by
  refine ⟨?_, by cases d <;> decide, rfl, rfl, rfl, rfl, rfl, rfl, rfl⟩
  rw [buildCronExpression]
  simp only [timeParts, if_pos (hhmm_ne_empty hh mm),
    jsSplit_hhmm hh mm hhh hmm]
  rfl

theorem weekly_cron_amended_witness :
    (':' ∉ ("10" : String).data ∧ ':' ∉ ("00" : String).data)
    ∧ (buildCronExpression ⟨"weekly", some .monday, some ("10" ++ ":" ++ "00")⟩
        = "00" ++ " " ++ "10" ++ " * * " ++ toString (getDayNumber .monday)
      ∧ buildCronExpression ⟨"weekly", some .monday, none⟩
          = "00 09 * * " ++ toString (getDayNumber .monday)
      ∧ getDayNumber .sunday = 0 ∧ getDayNumber .monday = 1
      ∧ getDayNumber .tuesday = 2 ∧ getDayNumber .wednesday = 3
      ∧ getDayNumber .thursday = 4 ∧ getDayNumber .friday = 5
      ∧ getDayNumber .saturday = 6) :=
  ⟨by decide, weekly_cron_amended .monday "10" "00" (by decide) (by decide)⟩

/-! ## ScheduleStore and ScheduleReconciler (content.service.ts lines 63-200)

The queue backend (bullmq) is an external collaborator: per the spec, a
repeatable registration is identified by a key onto which the store
prefixes/suffixes metadata around the caller-chosen job identity, and adding
under an existing key replaces rather than duplicates.  The store state is the
list of repeatable-job keys; a key is built from the job name, the fixed
`jobId` identity string and the cron pattern.  Failures of the individual
backend calls (list, remove-by-key, add) are injected through `QueueEnv`. -/

/-- `notificationStrategy` (spec section 3; `content.interface.ts` is not
under src/): feature toggles, message templates and the progress schedule,
exactly the fields the src/ code reads. -/
structure NotificationStrategy where
  progressAlert : Bool
  progressAlertMessage : String
  progressAlertSchedule : ProgressAlertSchedule
  lowProgressWarning : Bool
  campaignExpiredAlert : Bool
  mileStoneAlert : Bool
  mileStoneAlertMessage : String
  campingId : Option String
  organizationId : Option (List String)
deriving DecidableEq, Repr

/-- The queue state: the keys of the currently registered repeatable jobs. -/
abbrev QueueState := List String

/-- A repeatable-job key: the store wraps the fixed identity (`jobId`) with
the job name and the repeat pattern. -/
def mkRepeatKey (name jobId pattern : String) : String :=
  name ++ ":" ++ jobId ++ ":" ++ pattern

/-- Fault injection for the queue backend calls. -/
structure QueueEnv where
  listFails : Bool
  removeFails : String → Bool
  addFails : String → Bool

/-- Result of a queue operation: exceptions carry the state reached so far,
because backend mutations already performed are not undone by a throw. -/
inductive OpResult (α : Type) where
  | ok (state : QueueState) (val : α)
  | err (state : QueueState) (msg : String)

def OpResult.state {α : Type} : OpResult α → QueueState
  | .ok s _ => s
  | .err s _ => s

def OpResult.isOk {α : Type} : OpResult α → Bool
  | .ok _ _ => true
  | .err _ _ => false

def OpResult.bind {α β : Type} : OpResult α → (QueueState → α → OpResult β) → OpResult β
  | .ok s v, f => f s v
  | .err s m, _ => .err s m

/-- Registering a key: at most one registration per key (an add under an
already-present key replaces it, never duplicates). -/
def applyAdd (key : String) (s : QueueState) : QueueState :=
  s.filter (fun k => k != key) ++ [key]

/-- `scheduleQueue.add(name, data, { repeat: { pattern }, jobId })`. -/
def addRepeatableJob (env : QueueEnv) (name jobId pattern : String)
    (s : QueueState) : OpResult Unit :=
  if env.addFails jobId then .err s "add failed"
  else .ok (applyAdd (mkRepeatKey name jobId pattern) s) ()

/-- `scheduleQueue.removeRepeatableByKey(key)`. -/
def removeRepeatableByKey (env : QueueEnv) (key : String) (s : QueueState) :
    OpResult Unit :=
  if env.removeFails key then .err s "remove failed"
  else .ok (s.filter (fun k => k != key)) ()

/-- The three fixed identity strings of content.service.ts lines 182-186. -/
def jobIds : List String :=
  ["progress-alert-job", "low-progress-warning-job", "campaign-expired-alert-job"]

/-- `jobIds.some(id => job.key.includes(id))` of line 190. -/
def matchesAnyJobId (key : String) : Bool :=
  jobIds.any (fun id => strIncludes key id)

/-- The `for (const job of repeatableJobs)` loop of lines 188-196: iterates
over the snapshot returned by `getRepeatableJobs`, removing each matching key;
a throw from the backend aborts the rest of the loop. -/
def removeLoop (env : QueueEnv) : List String → QueueState → OpResult Unit
  | [], s => .ok s ()
  | k :: rest, s =>
    if matchesAnyJobId k then
      (removeRepeatableByKey env k s).bind fun s' _ => removeLoop env rest s'
    else removeLoop env rest s

/-- `removeExistingNotificationJobs` (lines 178-200): the whole body sits in a
try/catch whose handler only logs, so every backend error is swallowed and the
state reached so far is kept; a failing `getRepeatableJobs` leaves the state
untouched. -/
def removeExistingNotificationJobs (env : QueueEnv) (s : QueueState) : QueueState :=
  if env.listFails then s
  else (removeLoop env s s).state

/-- `addProgressAlertJob` (lines 111-143): registers `sendProgressAlert` under
the fixed identity with the derived cron expression. -/
def addProgressAlertJob (env : QueueEnv) (ns : NotificationStrategy)
    (s : QueueState) : OpResult Unit :=
  addRepeatableJob env "sendProgressAlert" "progress-alert-job"
    (buildCronExpression ns.progressAlertSchedule) s

/-- `addLowProgressWarningJob` (lines 146-159): daily at 10 AM. -/
def addLowProgressWarningJob (env : QueueEnv) (s : QueueState) : OpResult Unit :=
  addRepeatableJob env "checkLowProgress" "low-progress-warning-job" "0 10 * * *" s

/-- `addCampaignExpiredAlertJob` (lines 162-175): daily at 8 AM. -/
def addCampaignExpiredAlertJob (env : QueueEnv) (s : QueueState) : OpResult Unit :=
  addRepeatableJob env "checkExpiredCampaigns" "campaign-expired-alert-job" "0 8 * * *" s

/-- `setupNotificationJobs` (lines 83-108): one registration per enabled
toggle, in order; its try/catch logs and RE-THROWS, so a registration error
propagates unchanged to the caller. -/
def setupNotificationJobs (env : QueueEnv) (ns : NotificationStrategy)
    (s : QueueState) : OpResult Unit :=
  (if ns.progressAlert then addProgressAlertJob env ns s else .ok s ()).bind
    fun s1 _ =>
      (if ns.lowProgressWarning then addLowProgressWarningJob env s1
       else .ok s1 ()).bind
        fun s2 _ =>
          if ns.campaignExpiredAlert then addCampaignExpiredAlertJob env s2
          else .ok s2 ()

/-- The reconciliation performed by `upsertContent` when a notification
strategy update arrives (lines 64-67): remove old registrations, then
re-register from the new configuration. -/
def reconcileNotificationJobs (env : QueueEnv) (ns : NotificationStrategy)
    (s : QueueState) : OpResult Unit :=
  setupNotificationJobs env ns (removeExistingNotificationJobs env s)

/-- The queue environment in which no backend call fails. -/
def noFailQueueEnv : QueueEnv :=
  { listFails := false, removeFails := fun _ => false, addFails := fun _ => false }

/-- The number of registrations whose key contains the given identity. -/
def countMatching (id : String) (s : QueueState) : Nat :=
  (s.filter (fun k => strIncludes k id)).length

/-- The key under which the progress alert is registered. -/
def progressAlertKey (ns : NotificationStrategy) : String :=
  mkRepeatKey "sendProgressAlert" "progress-alert-job"
    (buildCronExpression ns.progressAlertSchedule)

/-- The key under which the low-progress warning is registered. -/
def lowProgressKey : String :=
  mkRepeatKey "checkLowProgress" "low-progress-warning-job" "0 10 * * *"

/-- The key under which the expired-campaign alert is registered. -/
def expiredKey : String :=
  mkRepeatKey "checkExpiredCampaigns" "campaign-expired-alert-job" "0 8 * * *"

/-! ### Containment and counting lemmas -/

theorem startsWithList_append (l b : List Char) :
    startsWithList l (l ++ b) = true := by
  induction l with
  | nil => rfl
  | cons a as ih => simp [startsWithList, ih]

theorem containsList_of_startsWith (sub l : List Char)
    (h : startsWithList sub l = true) : containsList sub l = true := by
  cases l with
  | nil =>
    cases sub with
    | nil => rfl
    | cons a as => simp [startsWithList] at h
  | cons c rest => simp [containsList, h]

theorem containsList_append_left (sub a l : List Char)
    (h : containsList sub l = true) : containsList sub (a ++ l) = true := by
  induction a with
  | nil => simpa using h
  | cons c as ih => simp [containsList, ih]

theorem containsList_append_self (sub a b : List Char) :
    containsList sub (a ++ (sub ++ b)) = true :=
  containsList_append_left sub a _
    (containsList_of_startsWith _ _ (startsWithList_append sub b))

/-- Every key built by the store contains its identity string. -/
theorem strIncludes_mkRepeatKey (name jobId pattern : String) :
    strIncludes (mkRepeatKey name jobId pattern) jobId = true := by
  have hd : (mkRepeatKey name jobId pattern).data
      = (name.data ++ [':']) ++ (jobId.data ++ (':' :: pattern.data)) := by
    simp [mkRepeatKey, String.data_append]
  rw [strIncludes, hd]
  exact containsList_append_self jobId.data _ _

theorem countMatching_append (id : String) (s t : QueueState) :
    countMatching id (s ++ t) = countMatching id s + countMatching id t := by
  simp [countMatching, List.filter_append]

theorem countMatching_filter_zero (id : String) (s : QueueState)
    (h : countMatching id s = 0) (p : String → Bool) :
    countMatching id (s.filter p) = 0 := by
  unfold countMatching at h ⊢
  rw [List.filter_comm]
  rw [List.length_eq_zero] at h
  rw [h]
  rfl

theorem countMatching_filterNe (id k : String) (s : QueueState)
    (h : strIncludes k id = false) :
    countMatching id (s.filter (fun x => x != k)) = countMatching id s := by
  unfold countMatching
  rw [List.filter_comm]
  congr 1
  apply List.filter_eq_self.mpr
  intro a ha
  have hincl : strIncludes a id = true := (List.mem_filter.mp ha).2
  simp only [bne_iff_ne, ne_eq, decide_eq_true_eq]
  intro hak
  rw [hak] at hincl
  rw [hincl] at h
  exact Bool.noConfusion h

theorem countMatching_applyAdd_self (id key : String) (s : QueueState)
    (h : strIncludes key id = true) (h0 : countMatching id s = 0) :
    countMatching id (applyAdd key s) = 1 := by
  rw [applyAdd, countMatching_append,
    countMatching_filter_zero id s h0 (fun k => k != key)]
  simp [countMatching, h]

theorem countMatching_applyAdd_other (id key : String) (s : QueueState)
    (h : strIncludes key id = false) :
    countMatching id (applyAdd key s) = countMatching id s := by
  rw [applyAdd, countMatching_append, countMatching_filterNe id key s h]
  simp [countMatching, h]

/-! ### Removal clears every matching key -/

theorem removeLoop_clears (iter : List String) :
    ∀ s : QueueState,
      (∀ k, k ∈ s → matchesAnyJobId k = true → k ∈ iter) →
      ∀ k, k ∈ (removeLoop noFailQueueEnv iter s).state →
        matchesAnyJobId k = false := by
  induction iter with
  | nil =>
    intro s hcov k hk
    cases h : matchesAnyJobId k with
    | false => rfl
    | true => exact absurd (hcov k hk h) (List.not_mem_nil k)
  | cons k0 rest ih =>
    intro s hcov k hk
    simp only [removeLoop] at hk
    by_cases h0 : matchesAnyJobId k0 = true
    · rw [if_pos h0] at hk
      simp only [removeRepeatableByKey, noFailQueueEnv, Bool.false_eq_true,
        if_false, OpResult.bind] at hk
      refine ih (s.filter (fun k => k != k0)) ?_ k hk
      intro k' hk' hm
      have hmem := List.mem_filter.mp hk'
      rcases List.mem_cons.mp (hcov k' hmem.1 hm) with hin | hin
      · exact absurd hin (by simpa using hmem.2)
      · exact hin
    · rw [if_neg h0] at hk
      refine ih s ?_ k hk
      intro k' hk' hm
      rcases List.mem_cons.mp (hcov k' hk' hm) with hin | hin
      · rw [hin] at hm
        exact absurd hm h0
      · exact hin

theorem removeExisting_clears (s : QueueState) :
    ∀ k, k ∈ removeExistingNotificationJobs noFailQueueEnv s →
      matchesAnyJobId k = false := by
  intro k hk
  unfold removeExistingNotificationJobs at hk
  simp only [noFailQueueEnv, Bool.false_eq_true, if_false] at hk
  exact removeLoop_clears s s (fun k' hk' _ => hk') k hk

theorem countMatching_removeExisting (s : QueueState) (id : String)
    (hid : id ∈ jobIds) :
    countMatching id (removeExistingNotificationJobs noFailQueueEnv s) = 0 := by
  rw [countMatching, List.length_eq_zero]
  apply List.filter_eq_nil_iff.mpr
  intro k hk
  have hcl := removeExisting_clears s k hk
  rw [matchesAnyJobId, List.any_eq_false] at hcl
  simp only [Bool.not_eq_true] at hcl ⊢
  exact hcl id hid

/-! ### The registration phase, stepwise -/

theorem setup_noFail_state (ns : NotificationStrategy) (R : QueueState) :
    (setupNotificationJobs noFailQueueEnv ns R).state
      = (if ns.campaignExpiredAlert then applyAdd expiredKey else id)
          ((if ns.lowProgressWarning then applyAdd lowProgressKey else id)
            ((if ns.progressAlert then applyAdd (progressAlertKey ns) else id) R)) := by
  cases hpa : ns.progressAlert <;> cases hlw : ns.lowProgressWarning <;>
    cases hce : ns.campaignExpiredAlert <;>
      simp [setupNotificationJobs, addProgressAlertJob, addLowProgressWarningJob,
        addCampaignExpiredAlertJob, addRepeatableJob, noFailQueueEnv,
        OpResult.bind, OpResult.state, progressAlertKey, lowProgressKey,
        expiredKey, hpa, hlw, hce]

theorem countMatching_optApply_other (idStr key : String) (b : Bool) (R : QueueState)
    (h : strIncludes key idStr = false) :
    countMatching idStr ((if b then applyAdd key else id) R) = countMatching idStr R := by
  cases b
  · simp
  · simpa using countMatching_applyAdd_other idStr key R h

theorem countMatching_optApply_self (idStr key : String) (b : Bool) (R : QueueState)
    (h : strIncludes key idStr = true) (h0 : countMatching idStr R = 0) :
    countMatching idStr ((if b then applyAdd key else id) R) = if b then 1 else 0 := by
  cases b
  · simpa using h0
  · simpa using countMatching_applyAdd_self idStr key R h h0

/-- One reconciliation run from any state leaves exactly one registration per
enabled feature and none per disabled feature (sanity hypotheses: the derived
cron pattern does not accidentally contain a foreign identity string). -/
theorem reconcile_noFail_counts (ns : NotificationStrategy) (s : QueueState)
    (h1 : strIncludes (progressAlertKey ns) "low-progress-warning-job" = false)
    (h2 : strIncludes (progressAlertKey ns) "campaign-expired-alert-job" = false) :
    countMatching "progress-alert-job"
        (reconcileNotificationJobs noFailQueueEnv ns s).state
      = (if ns.progressAlert then 1 else 0)
    ∧ countMatching "low-progress-warning-job"
        (reconcileNotificationJobs noFailQueueEnv ns s).state
      = (if ns.lowProgressWarning then 1 else 0)
    ∧ countMatching "campaign-expired-alert-job"
        (reconcileNotificationJobs noFailQueueEnv ns s).state
      = (if ns.campaignExpiredAlert then 1 else 0) := by
  have sP : strIncludes (progressAlertKey ns) "progress-alert-job" = true :=
    strIncludes_mkRepeatKey "sendProgressAlert" "progress-alert-job" _
  have sL : strIncludes lowProgressKey "low-progress-warning-job" = true := by decide
  have sE : strIncludes expiredKey "campaign-expired-alert-job" = true := by decide
  have dLP : strIncludes lowProgressKey "progress-alert-job" = false := by decide
  have dLE : strIncludes lowProgressKey "campaign-expired-alert-job" = false := by decide
  have dEP : strIncludes expiredKey "progress-alert-job" = false := by decide
  have dEL : strIncludes expiredKey "low-progress-warning-job" = false := by decide
  have hRP := countMatching_removeExisting s "progress-alert-job" (by decide)
  have hRL := countMatching_removeExisting s "low-progress-warning-job" (by decide)
  have hRE := countMatching_removeExisting s "campaign-expired-alert-job" (by decide)
  rw [reconcileNotificationJobs, setup_noFail_state]
  refine ⟨?_, ?_, ?_⟩
  · rw [countMatching_optApply_other _ _ _ _ dEP,
      countMatching_optApply_other _ _ _ _ dLP]
    exact countMatching_optApply_self _ _ _ _ sP hRP
  · rw [countMatching_optApply_other _ _ _ _ dEL]
    refine countMatching_optApply_self _ _ _ _ sL ?_
    rw [countMatching_optApply_other _ _ _ _ h1]
    exact hRL
  · refine countMatching_optApply_self _ _ _ _ sE ?_
    rw [countMatching_optApply_other _ _ _ _ dLE,
      countMatching_optApply_other _ _ _ _ h2]
    exact hRE

/-- C5: running schedule reconciliation twice in a row with the same
NotificationStrategy leaves exactly one active recurring registration per
enabled feature and none per disabled feature: each run first removes every
repeatable job whose key contains one of the three fixed identity strings and
then re-registers one job per enabled toggle under its fixed identity, so
repetition never accumulates duplicates.  (The two hypotheses are the sanity
conditions that the derived cron pattern does not itself contain a foreign
identity string — true of every actual cron expression.) -/
theorem reconcile_twice_one_registration_per_feature
    (ns : NotificationStrategy) (s : QueueState)
    (h1 : strIncludes (progressAlertKey ns) "low-progress-warning-job" = false)
    (h2 : strIncludes (progressAlertKey ns) "campaign-expired-alert-job" = false) :
    countMatching "progress-alert-job"
        (reconcileNotificationJobs noFailQueueEnv ns
          (reconcileNotificationJobs noFailQueueEnv ns s).state).state
      = (if ns.progressAlert then 1 else 0)
    ∧ countMatching "low-progress-warning-job"
        (reconcileNotificationJobs noFailQueueEnv ns
          (reconcileNotificationJobs noFailQueueEnv ns s).state).state
      = (if ns.lowProgressWarning then 1 else 0)
    ∧ countMatching "campaign-expired-alert-job"
        (reconcileNotificationJobs noFailQueueEnv ns
          (reconcileNotificationJobs noFailQueueEnv ns s).state).state
      = (if ns.campaignExpiredAlert then 1 else 0) :=
  reconcile_noFail_counts ns (reconcileNotificationJobs noFailQueueEnv ns s).state h1 h2

/-- A concrete configuration for the C5 witness: every toggle enabled,
weekly/monday/10:00 schedule. -/
def witnessStrategy : NotificationStrategy :=
  { progressAlert := true
    progressAlertMessage := "Campaign Progress Alert"
    progressAlertSchedule := ⟨"weekly", some .monday, some "10:00"⟩
    lowProgressWarning := true
    campaignExpiredAlert := true
    mileStoneAlert := true
    mileStoneAlertMessage := "Campaign Milestone Alert"
    campingId := none
    organizationId := none }

theorem reconcile_twice_one_registration_per_feature_witness :
    (strIncludes (progressAlertKey witnessStrategy) "low-progress-warning-job" = false
    ∧ strIncludes (progressAlertKey witnessStrategy) "campaign-expired-alert-job" = false)
    ∧ (countMatching "progress-alert-job"
        (reconcileNotificationJobs noFailQueueEnv witnessStrategy
          (reconcileNotificationJobs noFailQueueEnv witnessStrategy
            ["sendProgressAlert:progress-alert-job:30 9 1,15 * *", "foreign-job"]).state).state
      = (if witnessStrategy.progressAlert then 1 else 0)
    ∧ countMatching "low-progress-warning-job"
        (reconcileNotificationJobs noFailQueueEnv witnessStrategy
          (reconcileNotificationJobs noFailQueueEnv witnessStrategy
            ["sendProgressAlert:progress-alert-job:30 9 1,15 * *", "foreign-job"]).state).state
      = (if witnessStrategy.lowProgressWarning then 1 else 0)
    ∧ countMatching "campaign-expired-alert-job"
        (reconcileNotificationJobs noFailQueueEnv witnessStrategy
          (reconcileNotificationJobs noFailQueueEnv witnessStrategy
            ["sendProgressAlert:progress-alert-job:30 9 1,15 * *", "foreign-job"]).state).state
      = (if witnessStrategy.campaignExpiredAlert then 1 else 0)) :=
  ⟨⟨by decide, by decide⟩,
    reconcile_twice_one_registration_per_feature witnessStrategy
      ["sendProgressAlert:progress-alert-job:30 9 1,15 * *", "foreign-job"]
      (by decide) (by decide)⟩

theorem setup_isOk_iff (env : QueueEnv) (ns : NotificationStrategy) (s : QueueState) :
    (setupNotificationJobs env ns s).isOk = true ↔
      ((ns.progressAlert = true → env.addFails "progress-alert-job" = false)
      ∧ (ns.lowProgressWarning = true → env.addFails "low-progress-warning-job" = false)
      ∧ (ns.campaignExpiredAlert = true → env.addFails "campaign-expired-alert-job" = false)) := by
  cases hpa : ns.progressAlert <;> cases hfa : env.addFails "progress-alert-job" <;>
    cases hlw : ns.lowProgressWarning <;>
      cases hfl : env.addFails "low-progress-warning-job" <;>
        cases hce : ns.campaignExpiredAlert <;>
          cases hfe : env.addFails "campaign-expired-alert-job" <;>
            simp [setupNotificationJobs, addProgressAlertJob, addLowProgressWarningJob,
              addCampaignExpiredAlertJob, addRepeatableJob, OpResult.bind,
              OpResult.isOk, hpa, hfa, hlw, hfl, hce, hfe]

/-- C7: during reconciliation, queue-backend errors raised while removing
previously-registered recurring jobs (a failing `getRepeatableJobs` or any
failing `removeRepeatableByKey`) are swallowed by the catch in
`removeExistingNotificationJobs` and never prevent the registration step,
while an error raised while registering a recurring job propagates to the
caller: for EVERY failure environment, reconciliation succeeds exactly when
every enabled feature's registration call succeeds — the removal-failure
components of the environment are unconstrained on both sides. -/
theorem reconcile_removal_swallowed_registration_propagates
    (env : QueueEnv) (ns : NotificationStrategy) (s : QueueState) :
    (reconcileNotificationJobs env ns s).isOk = true ↔
      ((ns.progressAlert = true → env.addFails "progress-alert-job" = false)
      ∧ (ns.lowProgressWarning = true → env.addFails "low-progress-warning-job" = false)
      ∧ (ns.campaignExpiredAlert = true → env.addFails "campaign-expired-alert-job" = false)) := by
  rw [reconcileNotificationJobs]
  exact setup_isOk_iff env ns _

/-! ## NotificationHandlers (notificationWorker.ts)

Campaign amounts are rationals and progress arithmetic goes through a small
IEEE-style number type, so that `currentAmount / goalAmount` with a zero
`goalAmount` yields Infinity (or NaN for 0/0) exactly as JavaScript division
does.  Dates are abstracted to integers (days); `populate('createdBy')`
resolves to the stored owner id. -/

/-- A JavaScript number as used by the progress computation. -/
inductive JSNum where
  | fin (q : ℚ)
  | posInf
  | negInf
  | nan
deriving DecidableEq, Repr

/-- JS division on numbers: `x / 0` is Infinity (sign of `x`), `0 / 0` NaN. -/
def jsDiv (a b : ℚ) : JSNum :=
  if b = 0 then
    if a = 0 then .nan else if a > 0 then .posInf else .negInf
  else .fin (a / b)

/-- Multiplication by the positive literal 100. -/
def jsMul100 : JSNum → JSNum
  | .fin q => .fin (q * 100)
  | .posInf => .posInf
  | .negInf => .negInf
  | .nan => .nan

/-- `toFixed(1)` for a nonnegative rational: one rounded decimal digit. -/
def ratToFixed1Nonneg (q : ℚ) : String :=
  let n : ℤ := ⌊q * 10 + 1 / 2⌋
  toString (n / 10) ++ "." ++ toString (n % 10)

/-- `toFixed(1)` for a rational (ties rounded away from zero). -/
def ratToFixed1 (q : ℚ) : String :=
  if q < 0 then "-" ++ ratToFixed1Nonneg (-q) else ratToFixed1Nonneg q

/-- JS `Number.prototype.toFixed(1)`: "Infinity", "-Infinity" and "NaN" are
rendered verbatim (binary floating-point rendering artifacts are out of
scope; the values arising here are exact). -/
def jsToFixed1 : JSNum → String
  | .fin q => ratToFixed1 q
  | .posInf => "Infinity"
  | .negInf => "-Infinity"
  | .nan => "NaN"

/-- JS `<` against a numeric literal: false whenever the left side is NaN. -/
def jsLtNum : JSNum → ℚ → Bool
  | .fin q, c => decide (q < c)
  | .posInf, _ => false
  | .negInf, _ => true
  | .nan, _ => false

/-- A campaign document with the fields the handlers and the invitation flow
read (`campaign.interface.ts` is not under src/; fields per the spec and the
code usage). -/
structure CampaignDoc where
  id : String
  title : String
  status : String
  currentAmount : ℚ
  goalAmount : ℚ
  endDate : Int
  createdBy : String
deriving DecidableEq, Repr

/-- One call to the external `sendNotifications` collaborator. -/
structure NotificationMsg where
  userId : String
  ntype : String
  title : String
  message : String
deriving DecidableEq, Repr

/-- The query filter of `handleProgressAlert` (notificationWorker.ts lines
64-78): active campaigns ending in the future, optionally narrowed to one
campaign id and/or a set of owning organizations (both only when truthy). -/
def progressAlertFilter (campingId : Option String)
    (organizationId : Option (List String)) (now : Int) (c : CampaignDoc) : Bool :=
  (c.status == "active" && decide (now < c.endDate))
    && (if jsStrOptFalsy campingId then true else c.id == campingId.getD "")
    && (match organizationId with
        | some orgs => if orgs.length > 0 then orgs.contains c.createdBy else true
        | none => true)

/-- `handleProgressAlert` (notificationWorker.ts lines 61-95): for each
matching campaign computes `currentAmount / goalAmount * 100` WITHOUT any
zero guard and substitutes `progress.toFixed(1)` for the first `{progress}`
in the configured message. -/
def handleProgressAlert (message : String) (campingId : Option String)
    (organizationId : Option (List String)) (campaigns : List CampaignDoc)
    (now : Int) : List NotificationMsg :=
  (campaigns.filter (progressAlertFilter campingId organizationId now)).map
    fun c =>
      let progress := jsMul100 (jsDiv c.currentAmount c.goalAmount)
      { userId := c.createdBy
        ntype := "PROGRESS_ALERT"
        title := "Campaign Progress Update"
        message := jsReplaceFirst message "{progress}" (jsToFixed1 progress) }

/-- `handleLowProgressWarning` (notificationWorker.ts lines 97-126): active
campaigns ending within 7 days; warns the owner when the (unguarded) progress
is below 25 — with a zero `goalAmount` the progress is NaN or Infinity, the
comparison is false, and the campaign is passed over without warning or flag. -/
def handleLowProgressWarning (campaigns : List CampaignDoc) (now : Int) :
    List NotificationMsg :=
  (campaigns.filter fun c =>
      c.status == "active" && decide (now ≤ c.endDate)
        && decide (c.endDate ≤ now + 7)).filterMap
    fun c =>
      let progress := jsMul100 (jsDiv c.currentAmount c.goalAmount)
      if jsLtNum progress 25 then
        some { userId := c.createdBy
               ntype := "LOW_PROGRESS_WARNING"
               title := "⚠️ Low Campaign Progress"
               message := "\"" ++ c.title ++ "\" is below 25% with 1 week left" }
      else none

/-- C4 (code bug): neither handler guards `goalAmount = 0`.  A campaign with
`currentAmount = 250, goalAmount = 0` makes `handleProgressAlert` compute
Infinity and send the owner a notification whose message contains the literal
text "Infinity"; `handleLowProgressWarning` silently passes such a campaign
over (NaN/Infinity < 25 is false) instead of guarding or flagging it. -/
theorem goal_zero_infinity_propagates :
    handleProgressAlert "Progress is {progress}%" none none
        [⟨"c1", "Food Drive", "active", 250, 0, 10, "owner1"⟩] 0
      = [{ userId := "owner1", ntype := "PROGRESS_ALERT",
           title := "Campaign Progress Update",
           message := "Progress is Infinity%" }]
    ∧ strIncludes "Progress is Infinity%" "Infinity" = true
    ∧ handleLowProgressWarning
        [⟨"c2", "Bake Sale", "active", 250, 0, 5, "owner2"⟩] 0 = [] := by
  refine ⟨by decide, by decide, by decide⟩

/-! ## Milestone alert handler (notificationWorker.ts lines 160-178)

The singleton Content document (its interface file is not under src/) is
modelled from the spec: `mileStoneAlertMessage` is a required string field of
the notification strategy, so the only absent-template configurations are a
missing Content document (the optional chain yields `undefined`) or an empty
template (falsy, like `undefined`, under `||`). -/

structure ContentDoc where
  notificationStrategy : NotificationStrategy
deriving DecidableEq, Repr

/-- The generic fallback `Congratulations! ${milestone}% achieved!`. -/
def mileStoneFallback (milestone : Nat) : String :=
  "Congratulations! " ++ toString milestone ++ "% achieved!"

/-- `handleMilestoneAlert`: looks up the campaign from the job payload and
returns without notifying (and without raising) when it does not exist;
otherwise notifies the owner with the template, `{milestone}` substituted,
falling back to the generic message when the optional chain or the
substituted template is falsy.  `sendFails` injects a failure of the external
`sendNotifications` call (a raise makes the worker mark the job failed). -/
def handleMilestoneAlert (sendFails : Bool) (content : Option ContentDoc)
    (campaigns : List CampaignDoc) (campaignId : String) (milestone : Nat) :
    Except String (List NotificationMsg) :=
  match campaigns.find? (fun c => c.id == campaignId) with
  | none => .ok []
  | some campaign =>
    let raw : Option String := content.map fun c =>
      jsReplaceFirst c.notificationStrategy.mileStoneAlertMessage
        "{milestone}" (toString milestone)
    let message :=
      match raw with
      | some m => if m == "" then mileStoneFallback milestone else m
      | none => mileStoneFallback milestone
    if sendFails then .error "sendNotifications failed"
    else
      .ok [{ userId := campaign.createdBy
             ntype := "MILESTONE_ALERT"
             title := "🎉 Milestone Reached!"
             message := message }]

/-- C9: when the milestone job's campaign exists, the handler notifies the
campaign owner; with a configured template the `{milestone}` placeholder is
substituted with the payload's milestone value, and with no template
configured (no Content document, or an empty template) it falls back to the
generic congratulations message and still succeeds instead of failing. -/
theorem milestone_alert_message (content : Option ContentDoc)
    (campaigns : List CampaignDoc) (campaignId : String) (milestone : Nat)
    (campaign : CampaignDoc)
    (hfind : campaigns.find? (fun c => c.id == campaignId) = some campaign) :
    (∀ cdoc, content = some cdoc →
      (jsReplaceFirst cdoc.notificationStrategy.mileStoneAlertMessage
          "{milestone}" (toString milestone) == "") = false →
      handleMilestoneAlert false content campaigns campaignId milestone
        = .ok [{ userId := campaign.createdBy
                 ntype := "MILESTONE_ALERT"
                 title := "🎉 Milestone Reached!"
                 message := jsReplaceFirst
                   cdoc.notificationStrategy.mileStoneAlertMessage
                   "{milestone}" (toString milestone) }])
    ∧ (content = none →
      handleMilestoneAlert false content campaigns campaignId milestone
        = .ok [{ userId := campaign.createdBy
                 ntype := "MILESTONE_ALERT"
                 title := "🎉 Milestone Reached!"
                 message := mileStoneFallback milestone }])
    ∧ (∀ cdoc, content = some cdoc →
      (jsReplaceFirst cdoc.notificationStrategy.mileStoneAlertMessage
          "{milestone}" (toString milestone) == "") = true →
      handleMilestoneAlert false content campaigns campaignId milestone
        = .ok [{ userId := campaign.createdBy
                 ntype := "MILESTONE_ALERT"
                 title := "🎉 Milestone Reached!"
                 message := mileStoneFallback milestone }]) := by
  refine ⟨?_, ?_, ?_⟩
  · intro cdoc hc hne
    rw [handleMilestoneAlert, hfind, hc]
    simp [hne]
  · intro hc
    rw [handleMilestoneAlert, hfind, hc]
    rfl
  · intro cdoc hc heq
    rw [handleMilestoneAlert, hfind, hc]
    simp [heq]

theorem milestone_alert_message_witness :
    ([(⟨"c1", "Food Drive", "active", 250, 1000, 10, "owner1"⟩ : CampaignDoc)].find?
        (fun c => c.id == "c1")
      = some (⟨"c1", "Food Drive", "active", 250, 1000, 10, "owner1"⟩ : CampaignDoc))
    ∧ handleMilestoneAlert false
        (some ⟨witnessStrategy⟩)
        [⟨"c1", "Food Drive", "active", 250, 1000, 10, "owner1"⟩] "c1" 50
      = .ok [{ userId := "owner1"
               ntype := "MILESTONE_ALERT"
               title := "🎉 Milestone Reached!"
               message := jsReplaceFirst
                 witnessStrategy.mileStoneAlertMessage "{milestone}"
                 (toString 50) }]
    ∧ handleMilestoneAlert false none
        [⟨"c1", "Food Drive", "active", 250, 1000, 10, "owner1"⟩] "c1" 50
      = .ok [{ userId := "owner1"
               ntype := "MILESTONE_ALERT"
               title := "🎉 Milestone Reached!"
               message := mileStoneFallback 50 }] := by
  have h := milestone_alert_message (some ⟨witnessStrategy⟩)
    [⟨"c1", "Food Drive", "active", 250, 1000, 10, "owner1"⟩] "c1" 50
    ⟨"c1", "Food Drive", "active", 250, 1000, 10, "owner1"⟩ (by decide)
  have h2 := milestone_alert_message (none : Option ContentDoc)
    [⟨"c1", "Food Drive", "active", 250, 1000, 10, "owner1"⟩] "c1" 50
    ⟨"c1", "Food Drive", "active", 250, 1000, 10, "owner1"⟩ (by decide)
  exact ⟨by decide, h.1 ⟨witnessStrategy⟩ rfl (by decide), h2.2.1 rfl⟩

/-- C10 (implicit): a milestone job whose `campaignId` matches no campaign
returns successfully with no notification — even if the notification sender
would have failed — so the one-shot job is marked completed and never
retried, though no alert was delivered. -/
theorem milestone_alert_unknown_campaign (sendFails : Bool)
    (content : Option ContentDoc) (campaigns : List CampaignDoc)
    (campaignId : String) (milestone : Nat)
    (hfind : campaigns.find? (fun c => c.id == campaignId) = none) :
    handleMilestoneAlert sendFails content campaigns campaignId milestone
      = .ok [] := by
  rw [handleMilestoneAlert, hfind]

theorem milestone_alert_unknown_campaign_witness :
    ([(⟨"c1", "Food Drive", "active", 250, 1000, 10, "owner1"⟩ : CampaignDoc)].find?
        (fun c => c.id == "nope") = none)
    ∧ handleMilestoneAlert true none
        [⟨"c1", "Food Drive", "active", 250, 1000, 10, "owner1"⟩] "nope" 50
      = .ok [] :=
  ⟨by decide,
    milestone_alert_unknown_campaign true none
      [⟨"c1", "Food Drive", "active", 250, 1000, 10, "owner1"⟩] "nope" 50
      (by decide)⟩

/-! ## InvitationDonationTransaction (campaign.service.ts lines 90-185)

The user document carries the fields the flow reads and increments (per
`user.interface.ts`: optional `contact`, numeric counters).  `sendSMS`
(`shared/sendSMS.ts`) is not under src/ and is modelled from the spec: a
best-effort sender whose delivery failure is caught and logged internally and
never thrown to the caller; each attempted send is recorded in a log together
with its delivery outcome so that theorems can quantify over outcomes.
The Mongo session is embedded as all-or-nothing: the `try` body works on a
database value and the `catch` discards it, keeping the original. -/

structure UserDoc where
  id : String
  contact : Option String
  totalRaised : Int
  totalDonated : Int
  totalInvited : Int
deriving DecidableEq, Repr

/-- One invitation-history record (fields per the `batchInvitationDto` push
of lines 116-124; `InvitationType.invitation` is the spec-modelled runtime
value of the enum, whose file is not under src/). -/
structure InvitationRecord where
  itype : String
  campaignId : String
  invitationFromUser : String
  invitationFromPhone : String
  invitationForPhone : String
  invitationForName : String
  isDonated : Bool
deriving DecidableEq, Repr

/-- One donation (Transaction) record (fields per the `donationDto` of lines
141-149; `paymentStatusType.COMPLETED` is the spec-modelled runtime value
"completed" of the enum, whose file is not under src/). -/
structure DonationRecord where
  donorId : String
  donorPhone : String
  paymentMethod : Option String
  transactionId : String
  amountPaid : Int
  campaignId : String
  paymentStatus : String
deriving DecidableEq, Repr

/-- The collections the invitation+donation flow touches. -/
structure AppDB where
  campaigns : List CampaignDoc
  users : List UserDoc
  invitations : List InvitationRecord
  donations : List DonationRecord
deriving DecidableEq, Repr

structure Invitee where
  invitationForPhone : String
  invitationForName : Option String
deriving DecidableEq, Repr

structure InvitePayload where
  myInvitees : List Invitee
  donationAmount : Option Int
  paymentMethod : Option String
  invitationIrecievedFrom : String
deriving DecidableEq, Repr

/-- Failure injection for the four session-scoped writes, the generated
transaction id (`INV-${Date.now()}-...`), and the SMS delivery oracle. -/
structure TxnEnv where
  insertInvitationsFails : Bool
  createDonationFails : Bool
  incRaisedFails : Bool
  incInviterFails : Bool
  txnId : String
  smsDelivers : String → Bool

/-- Whether any step inside the transaction fails. -/
def anyTxnStepFails (env : TxnEnv) : Bool :=
  env.insertInvitationsFails || env.createDonationFails
    || env.incRaisedFails || env.incInviterFails

/-- An SMS attempt: per the spec-modelled `sendSMS`, the attempt is made and
logged whatever `delivered` turns out to be; no exception escapes. -/
structure SmsAttempt where
  phone : String
  text : String
  delivered : Bool
deriving DecidableEq, Repr

inductive InviteOutcome where
  | success (message : String) (donationAmount : Option Int)
  | failure (status : Nat) (message : String)
deriving DecidableEq, Repr

structure InviteResult where
  db : AppDB
  smsLog : List SmsAttempt
  outcome : InviteOutcome
deriving DecidableEq, Repr

def findUser (db : AppDB) (uid : String) : Option UserDoc :=
  db.users.find? (fun u => u.id == uid)

def findCampaignInDb (db : AppDB) (cid : String) : Option CampaignDoc :=
  db.campaigns.find? (fun c => c.id == cid)

/-- `User.updateOne({_id}, { $inc: { totalRaised: amt } })`. -/
def incRaised (db : AppDB) (uid : String) (amt : Int) : AppDB :=
  { db with users := db.users.map fun u =>
      if u.id == uid then { u with totalRaised := u.totalRaised + amt } else u }

/-- `User.updateOne({_id}, { $inc: { totalDonated: amt, totalInvited: cnt } })`. -/
def incDonatedInvited (db : AppDB) (uid : String) (amt : Int) (cnt : Nat) : AppDB :=
  { db with users := db.users.map fun u =>
      if u.id == uid then
        { u with totalDonated := u.totalDonated + amt
                 totalInvited := u.totalInvited + cnt }
      else u }

/-- `payload.donationAmount && payload.donationAmount > 0` as a boolean
(the JS falsy non-boolean results `undefined` and `0` cast to false). -/
def amtPositive : Option Int → Bool
  | some a => decide (0 < a)
  | none => false

/-- One element of `batchInvitationDto` (lines 116-124). -/
def mkInvitationRecord (campaign : CampaignDoc) (inviter : UserDoc)
    (inv : Invitee) (isDon : Bool) : InvitationRecord :=
  { itype := "invitation"
    campaignId := campaign.id
    invitationFromUser := inviter.id
    invitationFromPhone := inviter.contact.getD ""
    invitationForPhone := inv.invitationForPhone
    invitationForName := inv.invitationForName.getD ""
    isDonated := isDon }

/-- The SMS text of line 127. -/
def inviteSmsText (campaign : CampaignDoc) : String :=
  "You\x27ve been invited to join campaign \"" ++ campaign.title ++ "\". Join now!"

/-- The session-scoped `try` body of lines 136-162: bulk-insert the
invitation records; when a positive donation amount accompanies the batch,
create the donation record and apply the two counter increments.  Any
injected failure aborts with an exception. -/
def runInviteTxn (env : TxnEnv) (payload : InvitePayload)
    (campaign : CampaignDoc) (inviter referrer : UserDoc)
    (batch : List InvitationRecord) (db : AppDB) : Except Unit AppDB :=
  if env.insertInvitationsFails then .error ()
  else
    let db1 := { db with invitations := db.invitations ++ batch }
    if amtPositive payload.donationAmount then
      if env.createDonationFails then .error ()
      else
        let donation : DonationRecord :=
          { donorId := inviter.id
            donorPhone := inviter.contact.getD ""
            paymentMethod := payload.paymentMethod
            transactionId := env.txnId
            amountPaid := payload.donationAmount.getD 0
            campaignId := campaign.id
            paymentStatus := "completed" }
        let db2 := { db1 with donations := db1.donations ++ [donation] }
        if env.incRaisedFails then .error ()
        else
          let db3 := incRaised db2 referrer.id (payload.donationAmount.getD 0)
          if env.incInviterFails then .error ()
          else .ok (incDonatedInvited db3 inviter.id
            (payload.donationAmount.getD 0) payload.myInvitees.length)
    else .ok db1

/-- `invitePeopleToCampaign` (lines 90-185): self-invitation check, campaign
and user validation, per-invitee dto build with best-effort SMS (before the
transaction starts), then the atomic transaction; the catch aborts the
session (keeping the original database) and rethrows one generic
internal-server error. -/
def invitePeopleToCampaign (env : TxnEnv) (payload : InvitePayload)
    (userId : String) (campaignId : String) (db : AppDB) : InviteResult :=
  if payload.invitationIrecievedFrom == userId then
    ⟨db, [], .failure 400 "You can not invite yourself."⟩
  else
    match findCampaignInDb db campaignId with
    | none => ⟨db, [], .failure 404 "Campaign not found."⟩
    | some campaign =>
      match findUser db userId with
      | none => ⟨db, [], .failure 404 "User not found."⟩
      | some inviter =>
        if jsStrOptFalsy inviter.contact then
          ⟨db, [], .failure 404 "User not found."⟩
        else
          match findUser db payload.invitationIrecievedFrom with
          | none => ⟨db, [], .failure 404 "Invitation User not found."⟩
          | some referrer =>
            let isDon := amtPositive payload.donationAmount
            let batch := payload.myInvitees.map
              (fun inv => mkInvitationRecord campaign inviter inv isDon)
            let smsLog :=
              (payload.myInvitees.filter
                (fun inv => inv.invitationForPhone != "")).map
                fun inv =>
                  (⟨inv.invitationForPhone, inviteSmsText campaign,
                    env.smsDelivers inv.invitationForPhone⟩ : SmsAttempt)
            match runInviteTxn env payload campaign inviter referrer batch db with
            | .ok db' =>
              ⟨db', smsLog,
                .success "People invited successfully"
                  (if amtPositive payload.donationAmount
                   then payload.donationAmount else none)⟩
            | .error _ =>
              ⟨db, smsLog,
                .failure 500 "Failed to process invitation and donation"⟩

/-! ### Lookup/update lemmas -/

theorem find?_map_preserving (users : List UserDoc) (uid : String)
    (f : UserDoc → UserDoc) (hid : ∀ u, (f u).id = u.id) :
    (users.map f).find? (fun u => u.id == uid)
      = (users.find? (fun u => u.id == uid)).map f := by
  induction users with
  | nil => rfl
  | cons u us ih =>
    simp only [List.map_cons, List.find?]
    rw [hid u]
    cases h : (u.id == uid) with
    | true => rfl
    | false => simpa using ih

theorem findUser_incRaised (db : AppDB) (uid target : String) (amt : Int) :
    findUser (incRaised db target amt) uid
      = (findUser db uid).map fun u =>
          if u.id == target then { u with totalRaised := u.totalRaised + amt }
          else u := by
  unfold findUser incRaised
  exact find?_map_preserving db.users uid _ (fun u => by
    by_cases h : (u.id == target) = true <;> simp [h])

theorem findUser_incDonatedInvited (db : AppDB) (uid target : String)
    (amt : Int) (cnt : Nat) :
    findUser (incDonatedInvited db target amt cnt) uid
      = (findUser db uid).map fun u =>
          if u.id == target then
            { u with totalDonated := u.totalDonated + amt
                     totalInvited := u.totalInvited + cnt }
          else u := by
  unfold findUser incDonatedInvited
  exact find?_map_preserving db.users uid _ (fun u => by
    by_cases h : (u.id == target) = true <;> simp [h])

/-- C8: a self-invitation (`invitationIrecievedFrom` equal to the inviter's
own id) is rejected synchronously with a bad-request validation error before
any lookup, invitation record, donation record, counter update or SMS send:
the database is returned untouched and the SMS log is empty. -/
theorem self_invitation_rejected (env : TxnEnv) (payload : InvitePayload)
    (userId campaignId : String) (db : AppDB)
    (hself : payload.invitationIrecievedFrom = userId) :
    invitePeopleToCampaign env payload userId campaignId db
      = ⟨db, [], .failure 400 "You can not invite yourself."⟩ := by
  simp [invitePeopleToCampaign, hself]

theorem self_invitation_rejected_witness :
    ((⟨[⟨"p1", none⟩], some 50, none, "u1"⟩ : InvitePayload).invitationIrecievedFrom = "u1")
    ∧ invitePeopleToCampaign ⟨false, false, false, false, "TX1", fun _ => true⟩
        ⟨[⟨"p1", none⟩], some 50, none, "u1"⟩ "u1" "c1" ⟨[], [], [], []⟩
      = ⟨⟨[], [], [], []⟩, [], .failure 400 "You can not invite yourself."⟩ :=
  ⟨rfl, self_invitation_rejected _ _ _ _ _ rfl⟩

/-- The data outcome of the flow does not depend on the SMS delivery oracle:
two environments differing only in `smsDelivers` produce the same database
and the same caller-visible outcome. -/
theorem invite_sms_oracle_irrelevant (e1 e2 e3 e4 : Bool) (et : String)
    (es es' : String → Bool) (payload : InvitePayload)
    (userId campaignId : String) (db : AppDB) :
    ((invitePeopleToCampaign ⟨e1, e2, e3, e4, et, es⟩ payload userId campaignId db).db,
      (invitePeopleToCampaign ⟨e1, e2, e3, e4, et, es⟩ payload userId campaignId db).outcome)
    = ((invitePeopleToCampaign ⟨e1, e2, e3, e4, et, es'⟩ payload userId campaignId db).db,
      (invitePeopleToCampaign ⟨e1, e2, e3, e4, et, es'⟩ payload userId campaignId db).outcome) := by
  simp only [invitePeopleToCampaign]
  by_cases h1 : (payload.invitationIrecievedFrom == userId) = true
  · simp [h1]
  · simp only [Bool.not_eq_true] at h1
    simp only [h1, Bool.false_eq_true, if_false]
    cases hc : findCampaignInDb db campaignId with
    | none => rfl
    | some campaign =>
      cases hu : findUser db userId with
      | none => rfl
      | some inviter =>
        by_cases hcon : jsStrOptFalsy inviter.contact = true
        · simp [hcon]
        · simp only [Bool.not_eq_true] at hcon
          simp only [hcon, Bool.false_eq_true, if_false]
          cases hr : findUser db payload.invitationIrecievedFrom with
          | none => rfl
          | some referrer =>
            dsimp only
            have htxn :
                runInviteTxn ⟨e1, e2, e3, e4, et, es⟩ payload campaign inviter
                    referrer
                    (payload.myInvitees.map fun inv =>
                      mkInvitationRecord campaign inviter inv
                        (amtPositive payload.donationAmount)) db
                  = runInviteTxn ⟨e1, e2, e3, e4, et, es'⟩ payload campaign
                      inviter referrer
                      (payload.myInvitees.map fun inv =>
                        mkInvitationRecord campaign inviter inv
                          (amtPositive payload.donationAmount)) db := rfl
            rw [htxn]
            cases runInviteTxn ⟨e1, e2, e3, e4, et, es'⟩ payload campaign
              inviter referrer
              (payload.myInvitees.map fun inv =>
                mkInvitationRecord campaign inviter inv
                  (amtPositive payload.donationAmount)) db <;> rfl

/-- The SMS attempts do not depend on the transaction: two environments
differing only in the four transaction failure flags produce the same SMS
log, so every attempt survives even a fully aborted transaction. -/
theorem invite_smsLog_txn_irrelevant (a1 a2 a3 a4 b1 b2 b3 b4 : Bool)
    (et : String) (es : String → Bool) (payload : InvitePayload)
    (userId campaignId : String) (db : AppDB) :
    (invitePeopleToCampaign ⟨a1, a2, a3, a4, et, es⟩ payload userId campaignId db).smsLog
      = (invitePeopleToCampaign ⟨b1, b2, b3, b4, et, es⟩ payload userId campaignId db).smsLog := by
  simp only [invitePeopleToCampaign]
  by_cases h1 : (payload.invitationIrecievedFrom == userId) = true
  · simp [h1]
  · simp only [Bool.not_eq_true] at h1
    simp only [h1, Bool.false_eq_true, if_false]
    cases hc : findCampaignInDb db campaignId with
    | none => rfl
    | some campaign =>
      cases hu : findUser db userId with
      | none => rfl
      | some inviter =>
        by_cases hcon : jsStrOptFalsy inviter.contact = true
        · simp [hcon]
        · simp only [Bool.not_eq_true] at hcon
          simp only [hcon, Bool.false_eq_true, if_false]
          cases hr : findUser db payload.invitationIrecievedFrom with
          | none => rfl
          | some referrer =>
            dsimp only
            cases runInviteTxn ⟨a1, a2, a3, a4, et, es⟩ payload campaign
                inviter referrer
                (payload.myInvitees.map fun inv =>
                  mkInvitationRecord campaign inviter inv
                    (amtPositive payload.donationAmount)) db <;>
              cases runInviteTxn ⟨b1, b2, b3, b4, et, es⟩ payload campaign
                  inviter referrer
                  (payload.myInvitees.map fun inv =>
                    mkInvitationRecord campaign inviter inv
                      (amtPositive payload.donationAmount)) db <;> rfl

/-- C6: SMS invitations are a best-effort side channel outside the atomic
transaction.  First conjunct: the database and the caller-visible outcome are
identical for every SMS delivery oracle, so a delivery failure neither rolls
back nor prevents the invitation/donation data changes and the critical path
never branches on delivery confirmation.  Second conjunct: the SMS log is
identical for every combination of transaction failure flags, so the sends
are issued outside the transaction (they are not rolled back when the
transaction aborts).  `sendSMS` itself is modelled from the spec (its source
is not under src/): best-effort, failures caught and logged internally. -/
theorem sms_best_effort_side_channel (env : TxnEnv) (g : String → Bool)
    (f1 f2 f3 f4 : Bool) (payload : InvitePayload)
    (userId campaignId : String) (db : AppDB) :
    ((invitePeopleToCampaign { env with smsDelivers := g } payload userId campaignId db).db
        = (invitePeopleToCampaign env payload userId campaignId db).db
      ∧ (invitePeopleToCampaign { env with smsDelivers := g } payload userId campaignId db).outcome
        = (invitePeopleToCampaign env payload userId campaignId db).outcome)
    ∧ (invitePeopleToCampaign
          { env with insertInvitationsFails := f1, createDonationFails := f2,
                     incRaisedFails := f3, incInviterFails := f4 }
          payload userId campaignId db).smsLog
        = (invitePeopleToCampaign env payload userId campaignId db).smsLog := by
  rcases env with ⟨e1, e2, e3, e4, et, es⟩
  have h := invite_sms_oracle_irrelevant e1 e2 e3 e4 et g es payload userId campaignId db
  exact ⟨⟨congrArg Prod.fst h, congrArg Prod.snd h⟩,
    invite_smsLog_txn_irrelevant f1 f2 f3 f4 e1 e2 e3 e4 et es payload userId campaignId db⟩

/-- C1: for a donation amount of 50 and 3 invitees (with all validations
passing), committing the transaction appends exactly 3 invitation records and
exactly 1 donation record with paymentStatus "completed", increments the
referring user's totalRaised by 50 and the inviter's totalDonated by 50 and
totalInvited by 3; and for ANY failure at any step inside the transaction the
whole transaction is aborted — the database is unchanged (zero invitation
records, zero donation records, untouched counters) and the caller receives
the single generic internal error. -/
theorem invite_txn_commit_abort (env : TxnEnv) (payload : InvitePayload)
    (userId campaignId : String) (db : AppDB) (campaign : CampaignDoc)
    (inviter referrer : UserDoc)
    (hself : (payload.invitationIrecievedFrom == userId) = false)
    (hcamp : findCampaignInDb db campaignId = some campaign)
    (huser : findUser db userId = some inviter)
    (hcontact : jsStrOptFalsy inviter.contact = false)
    (href : findUser db payload.invitationIrecievedFrom = some referrer)
    (hamt : payload.donationAmount = some 50)
    (hlen : payload.myInvitees.length = 3) :
    (anyTxnStepFails env = false →
      (invitePeopleToCampaign env payload userId campaignId db).outcome
        = .success "People invited successfully" (some 50)
      ∧ (invitePeopleToCampaign env payload userId campaignId db).db.invitations
        = db.invitations
          ++ payload.myInvitees.map (fun inv => mkInvitationRecord campaign inviter inv true)
      ∧ (invitePeopleToCampaign env payload userId campaignId db).db.invitations.length
        = db.invitations.length + 3
      ∧ (∃ rec : DonationRecord,
          (invitePeopleToCampaign env payload userId campaignId db).db.donations
            = db.donations ++ [rec]
          ∧ rec.paymentStatus = "completed" ∧ rec.amountPaid = 50)
      ∧ findUser (invitePeopleToCampaign env payload userId campaignId db).db
          payload.invitationIrecievedFrom
        = some { referrer with totalRaised := referrer.totalRaised + 50 }
      ∧ findUser (invitePeopleToCampaign env payload userId campaignId db).db userId
        = some { inviter with totalDonated := inviter.totalDonated + 50
                              totalInvited := inviter.totalInvited + 3 })
    ∧ (anyTxnStepFails env = true →
      (invitePeopleToCampaign env payload userId campaignId db).db = db
      ∧ (invitePeopleToCampaign env payload userId campaignId db).outcome
        = .failure 500 "Failed to process invitation and donation") := by
  have hpos : amtPositive payload.donationAmount = true := by rw [hamt]; rfl
  have hne : payload.invitationIrecievedFrom ≠ userId := by
    intro e
    rw [e] at hself
    simp at hself
  have hpos50 : amtPositive (some 50) = true := rfl
  have hiid : inviter.id = userId := by
    have h' : db.users.find? (fun u => u.id == userId) = some inviter := huser
    have hb : (inviter.id == userId) = true := by
      simpa using List.find?_some h'
    exact eq_of_beq hb
  have hrid : referrer.id = payload.invitationIrecievedFrom := by
    have h' : db.users.find? (fun u => u.id == payload.invitationIrecievedFrom)
        = some referrer := href
    have hb : (referrer.id == payload.invitationIrecievedFrom) = true := by
      simpa using List.find?_some h'
    exact eq_of_beq hb
  have hir_ne : inviter.id ≠ referrer.id := by
    rw [hiid, hrid]
    exact fun e => hne e.symm
  have hri_ne : referrer.id ≠ inviter.id := fun e => hir_ne e.symm
  constructor
  · intro hok
    have hflags := by
      simpa [anyTxnStepFails, Bool.or_eq_false_iff] using hok
    obtain ⟨⟨⟨hf1, hf2⟩, hf3⟩, hf4⟩ := hflags
    have hinv : invitePeopleToCampaign env payload userId campaignId db
        = ⟨incDonatedInvited
              (incRaised
                { db with
                    invitations := db.invitations
                      ++ payload.myInvitees.map
                          (fun inv => mkInvitationRecord campaign inviter inv true)
                    donations := db.donations
                      ++ [⟨inviter.id, inviter.contact.getD "",
                           payload.paymentMethod, env.txnId, 50, campaign.id,
                           "completed"⟩] }
                referrer.id 50)
              inviter.id 50 payload.myInvitees.length,
            (payload.myInvitees.filter (fun inv => inv.invitationForPhone != "")).map
              (fun inv => ⟨inv.invitationForPhone, inviteSmsText campaign,
                env.smsDelivers inv.invitationForPhone⟩),
            .success "People invited successfully" (some 50)⟩ := by
      simp [invitePeopleToCampaign, hself, hcamp, huser, hcontact, href,
        runInviteTxn, hf1, hf2, hf3, hf4, hpos, hamt, hpos50]
    rw [hinv]
    refine ⟨rfl, ?_, ?_, ?_, ?_, ?_⟩
    · simp [incRaised, incDonatedInvited]
    · simp [incRaised, incDonatedInvited, hlen]
    · refine ⟨⟨inviter.id, inviter.contact.getD "", payload.paymentMethod,
        env.txnId, 50, campaign.id, "completed"⟩, ?_, rfl, rfl⟩
      simp [incRaised, incDonatedInvited]
    · rw [findUser_incDonatedInvited, findUser_incRaised]
      have hdb2 : findUser
          { db with
              invitations := db.invitations
                ++ payload.myInvitees.map
                    (fun inv => mkInvitationRecord campaign inviter inv true)
              donations := db.donations
                ++ [⟨inviter.id, inviter.contact.getD "",
                     payload.paymentMethod, env.txnId, 50, campaign.id,
                     "completed"⟩] }
          payload.invitationIrecievedFrom = some referrer := href
      rw [hdb2]
      simp [hri_ne]
    · rw [findUser_incDonatedInvited, findUser_incRaised]
      have hdb2 : findUser
          { db with
              invitations := db.invitations
                ++ payload.myInvitees.map
                    (fun inv => mkInvitationRecord campaign inviter inv true)
              donations := db.donations
                ++ [⟨inviter.id, inviter.contact.getD "",
                     payload.paymentMethod, env.txnId, 50, campaign.id,
                     "completed"⟩] }
          userId = some inviter := huser
      rw [hdb2]
      simp [hir_ne, hlen]
  · intro hfail
    have hrunE : runInviteTxn env payload campaign inviter referrer
        (payload.myInvitees.map
          (fun inv => mkInvitationRecord campaign inviter inv
            (amtPositive payload.donationAmount))) db = .error () := by
      cases h1 : env.insertInvitationsFails <;>
        cases h2 : env.createDonationFails <;>
          cases h3 : env.incRaisedFails <;>
            cases h4 : env.incInviterFails <;>
              simp_all [runInviteTxn, anyTxnStepFails, hpos]
    have hinv : invitePeopleToCampaign env payload userId campaignId db
        = ⟨db,
            (payload.myInvitees.filter (fun inv => inv.invitationForPhone != "")).map
              (fun inv => ⟨inv.invitationForPhone, inviteSmsText campaign,
                env.smsDelivers inv.invitationForPhone⟩),
            .failure 500 "Failed to process invitation and donation"⟩ := by
      simp only [invitePeopleToCampaign, hself, Bool.false_eq_true, if_false,
        hcamp, huser, hcontact, href, hrunE]
    rw [hinv]
    exact ⟨rfl, rfl⟩

def wCampaign : CampaignDoc := ⟨"c1", "Food Drive", "active", 0, 1000, 10, "owner1"⟩

def wInviter : UserDoc := ⟨"u1", some "555", 2, 3, 4⟩

def wReferrer : UserDoc := ⟨"u2", none, 7, 8, 9⟩

def wDB : AppDB := ⟨[wCampaign], [wInviter, wReferrer], [], []⟩

def wPayload : InvitePayload :=
  ⟨[⟨"p1", some "Ann"⟩, ⟨"p2", none⟩, ⟨"", some "Cole"⟩], some 50, some "card", "u2"⟩

def wEnv : TxnEnv := ⟨false, false, false, false, "TX1", fun _ => true⟩

theorem invite_txn_commit_abort_witness :
    (anyTxnStepFails wEnv = false →
      (invitePeopleToCampaign wEnv wPayload "u1" "c1" wDB).outcome
        = .success "People invited successfully" (some 50)
      ∧ (invitePeopleToCampaign wEnv wPayload "u1" "c1" wDB).db.invitations
        = wDB.invitations
          ++ wPayload.myInvitees.map
              (fun inv => mkInvitationRecord wCampaign wInviter inv true)
      ∧ (invitePeopleToCampaign wEnv wPayload "u1" "c1" wDB).db.invitations.length
        = wDB.invitations.length + 3
      ∧ (∃ rec : DonationRecord,
          (invitePeopleToCampaign wEnv wPayload "u1" "c1" wDB).db.donations
            = wDB.donations ++ [rec]
          ∧ rec.paymentStatus = "completed" ∧ rec.amountPaid = 50)
      ∧ findUser (invitePeopleToCampaign wEnv wPayload "u1" "c1" wDB).db
          wPayload.invitationIrecievedFrom
        = some { wReferrer with totalRaised := wReferrer.totalRaised + 50 }
      ∧ findUser (invitePeopleToCampaign wEnv wPayload "u1" "c1" wDB).db "u1"
        = some { wInviter with totalDonated := wInviter.totalDonated + 50
                               totalInvited := wInviter.totalInvited + 3 })
    ∧ (anyTxnStepFails wEnv = true →
      (invitePeopleToCampaign wEnv wPayload "u1" "c1" wDB).db = wDB
      ∧ (invitePeopleToCampaign wEnv wPayload "u1" "c1" wDB).outcome
        = .failure 500 "Failed to process invitation and donation") :=
  invite_txn_commit_abort wEnv wPayload "u1" "c1" wDB wCampaign wInviter wReferrer
    (by decide) (by decide) (by decide) (by decide) (by decide) rfl rfl
